import Mathlib

/-!
Shallow embedding of `src/multirepr_indexing.py`, a document
ingestion-and-retrieval script.  The external collaborators (the
`unstructured` partitioner, the summarization chain, the Chroma vector
store, the sqlite engine's failure modes, and the retrieval chain) are
modelled as parameters of an environment structure; the orchestration
code of the script itself (connect, create table, the per-file and
per-segment loops, the metadata dictionary, the try/except blocks) is
translated faithfully, statement by statement.

Modelling decisions:
- sqlite's `documents` table (`id INTEGER PRIMARY KEY, metadata TEXT`)
  is a list of `(id, metadata-text)` rows; a plain `INSERT` for an id
  that is already present raises `IntegrityError` (UNIQUE constraint),
  exactly as sqlite does for a duplicated primary key.
- Python exceptions are `Except` values; a raise that the script does
  not catch propagates as an `Except.error` carrying the state at the
  point of the raise (the externally observable store contents).
- `json.dumps` is modelled as an injective textual rendering of the
  metadata dictionary.
-/

namespace MultiReprIndexing

/-- An embedded-image descriptor as produced by the partitioner: the
loop reads `img['path']` from each. -/
structure Image where
  path : String
deriving DecidableEq

/-- Per-segment metadata read by the ingestion loop via
`doc.metadata.get('page_number', 0)` and `doc.metadata.get('images', [])`:
an optional page number and a list of embedded images. -/
structure SegMetadata where
  page_number : Option Nat
  images : List Image
deriving DecidableEq

/-- One extracted segment (`doc` in the loop at line 67): its text and
its metadata. -/
structure Segment where
  text : String
  metadata : SegMetadata
deriving DecidableEq

/-- The Document Record metadata dictionary built at lines 69-75 of
`process_documents`. -/
structure DocMetadata where
  filename : String
  source : String
  pagenumber : Nat
  image_count : Nat
  images : List (Nat × String)
deriving DecidableEq

/-- Textual rendering of the positional-index-to-path mapping, part of
the `json.dumps` model. -/
def imagesText : List (Nat × String) → String
  | [] => ""
  | (i, p) :: rest => toString i ++ ": " ++ p ++ ", " ++ imagesText rest

/-- Model of `json.dumps(metadata)` at line 35: an injective textual
serialization of the metadata dictionary. -/
def jsonDumps (m : DocMetadata) : String :=
  "filename: " ++ m.filename ++ ", source: " ++ m.source ++
    ", pagenumber: " ++ toString m.pagenumber ++
    ", image_count: " ++ toString m.image_count ++
    ", images: [" ++ imagesText m.images ++ "]"

/-- A sqlite connection: the path it was opened on, the rows of the
`documents` table, and whether the connection is still open. -/
structure DbConn where
  path : String
  rows : List (Nat × String)
  isOpen : Bool
deriving DecidableEq

/-- Model of `connect_db` (lines 18-19): `sqlite3.connect(db_name)` with
the default argument `db_name='documents.db'`.  `fs` maps a database
path to the rows currently persisted there. -/
def connect_db (fs : String → List (Nat × String))
    (db_name : String := "documents.db") : DbConn :=
  { path := db_name, rows := fs db_name, isOpen := true }

/-- Model of `create_table` (lines 21-29): `CREATE TABLE IF NOT EXISTS`
is idempotent; in the row-list model the table always exists, so this
is the identity on the connection. -/
def create_table (conn : DbConn) : DbConn := conn

/-- Model of `conn.close()`. -/
def closeConn (conn : DbConn) : DbConn := { conn with isOpen := false }

/-- Whether the `documents` table already holds a row with this id. -/
def hasId (rows : List (Nat × String)) (id : Nat) : Bool :=
  rows.any (fun r => r.1 = id)

/-- Model of `cursor.execute('INSERT INTO documents (id, metadata)
VALUES (?, ?)', ...)`: a plain INSERT on the `id INTEGER PRIMARY KEY`
column raises `IntegrityError` when a row with that id already exists,
and appends the row otherwise. -/
def insertRow (rows : List (Nat × String)) (id : Nat) (v : String) :
    Except String (List (Nat × String)) :=
  if hasId rows id then
    Except.error "IntegrityError: UNIQUE constraint failed: documents.id"
  else
    Except.ok (rows ++ [(id, v)])

/-- The body of the `try` block of `add_document` (lines 33-39):
serialize the metadata, INSERT, commit.  `ioFail` injects a sqlite I/O
failure of the write, the other failure mode the except block can see. -/
def add_document_body (ioFail : Bool) (conn : DbConn) (doc_id : Nat)
    (metadata : DocMetadata) : Except String DbConn :=
  if ioFail then Except.error "OperationalError: disk I/O error"
  else
    match insertRow conn.rows doc_id (jsonDumps metadata) with
    | Except.error e => Except.error e
    | Except.ok rows2 => Except.ok { conn with rows := rows2 }

/-- Model of `add_document` (lines 32-41): the whole body is wrapped in
`try/except Exception`, so the function always returns; on an exception
the error is logged and the connection state is left as it was. -/
def add_document (ioFail : Bool) (conn : DbConn) (doc_id : Nat)
    (metadata : DocMetadata) : DbConn :=
  match add_document_body ioFail conn doc_id metadata with
  | Except.ok conn2 => conn2
  | Except.error _ => conn

/-- One entry of the Chroma summary vector store, as built at line 46:
the summary text and the metadata `id`. -/
structure SummaryDoc where
  text : String
  id : Nat
deriving DecidableEq

/-- The body of the `try` block of `add_summary` (lines 45-47):
`summary_vector_store.add_documents([...])` appends one entry; `vecFail`
injects a failure of the embedding or store-write call. -/
def add_summary_body (vecFail : Bool) (doc_id : Nat) (summary : String)
    (store : List SummaryDoc) : Except String (List SummaryDoc) :=
  if vecFail then Except.error "EmbeddingError"
  else Except.ok (store ++ [{ text := summary, id := doc_id }])

/-- Model of `add_summary` (lines 44-49): wrapped in
`try/except Exception`, so the function always returns; on an exception
the error is logged and the store is left as it was. -/
def add_summary (vecFail : Bool) (doc_id : Nat) (summary : String)
    (store : List SummaryDoc) : List SummaryDoc :=
  match add_summary_body vecFail doc_id summary store with
  | Except.ok store2 => store2
  | Except.error _ => store

/-- The environment of one ingestion run: the folder listing and the
behavior of the external collaborators (partitioner, summarizer) plus
injected failure flags for the per-call store writes. -/
structure Env where
  listdir : List String
  partitionSegs : String → List Segment
  partitionFails : String → Bool
  summarizeFn : String → String
  summarizeFails : String → Bool
  docWriteFails : Nat → DocMetadata → Bool
  vecAddFails : Nat → String → Bool

/-- Model of `partition(file_path)` at line 65: the external partitioner
either raises `ExtractionError` or returns the file's segments. -/
def partitionCall (env : Env) (file_path : String) :
    Except String (List Segment) :=
  if env.partitionFails file_path then Except.error "ExtractionError"
  else Except.ok (env.partitionSegs file_path)

/-- Model of `summary_chain.run(content)` at line 76: the external
summarization chain either raises or returns a summary string. -/
def summaryChainRun (env : Env) (content : String) : Except String String :=
  if env.summarizeFails content then Except.error "SummarizationError"
  else Except.ok (env.summarizeFn content)

/-- Model of `os.path.join(folder_path, filename)` at line 64. -/
def path_join (a b : String) : String := a ++ "/" ++ b

/-- The metadata dictionary built at lines 69-75: filename, source path,
page number defaulting to 0, image count, and the positional
index-to-path mapping `enumerate` produces from the images list. -/
def buildMetadata (filename file_path : String) (doc : Segment) :
    DocMetadata :=
  { filename := filename
    source := file_path
    pagenumber := doc.metadata.page_number.getD 0
    image_count := doc.metadata.images.length
    images := (doc.metadata.images.map Image.path).enum }

/-- The externally observable state of one ingestion run: the sqlite
connection and the contents of the summary vector store. -/
structure PState where
  conn : DbConn
  summaries : List SummaryDoc
deriving DecidableEq

/-- Result of a pipeline fragment: normal termination with a final
state, or an uncaught Python exception carrying the message and the
observable state at the point of the raise. -/
abbrev PResult := Except (String × PState) PState

/-- The body of the inner loop of `process_documents` (lines 67-78) for
one segment: build the metadata, run the summary chain (uncaught: a
raise here propagates), then `add_document` and `add_summary` (both
catch internally and always return). -/
def processSegment (env : Env) (folder_path filename : String)
    (doc_id : Nat) (doc : Segment) (st : PState) : PResult :=
  let file_path := path_join folder_path filename
  let metadata := buildMetadata filename file_path doc
  match summaryChainRun env doc.text with
  | Except.error e => Except.error (e, st)
  | Except.ok summary =>
      let conn2 := add_document (env.docWriteFails doc_id metadata)
        st.conn doc_id metadata
      let sums2 := add_summary (env.vecAddFails doc_id summary)
        doc_id summary st.summaries
      Except.ok { conn := conn2, summaries := sums2 }

/-- One iteration of the outer loop of `process_documents` (lines 63-78)
for one listed file: `partition` (uncaught: a raise propagates), then
the inner loop over the returned segments. -/
def processFile (env : Env) (folder_path : String) (doc_id : Nat)
    (filename : String) (st : PState) : PResult :=
  match partitionCall env (path_join folder_path filename) with
  | Except.error e => Except.error (e, st)
  | Except.ok documents =>
      documents.foldlM
        (fun s doc => processSegment env folder_path filename doc_id doc s) st

/-- Model of `enumerate(os.listdir(folder_path), start=1)` at line 63:
each listed filename is paired with a sequential integer id starting at
1, in listing order, before any of the file's segments are seen. -/
def assignIds (listdir : List String) : List (Nat × String) :=
  List.enumFrom 1 listdir

/-- Model of `process_documents` (lines 52-80): connect to the default
database, ensure the table, open the summary store (whose persisted
contents at `vector_db_path` are `persisted`), run the two nested loops,
and close the connection — the close at line 80 is reached only when the
loops terminate normally, since no try/finally protects it. -/
def process_documents (env : Env) (fs : String → List (Nat × String))
    (persisted : List SummaryDoc) (folder_path vector_db_path : String) :
    PResult :=
  match (assignIds env.listdir).foldlM
      (fun s p => processFile env folder_path p.1 p.2 s)
      { conn := create_table (connect_db fs), summaries := persisted } with
  | Except.error es => Except.error es
  | Except.ok st => Except.ok { st with conn := closeConn st.conn }

/-- Environment of the retrieval path: the three external stages the
`retrieval_chain.run(query)` call performs — embed the query, search the
index, generate the answer — each of which may raise. -/
structure REnv where
  embedQuery : String → Except String (List Int)
  searchIndex : List Int → Except String (List Nat)
  generateAnswer : String → List Nat → Except String String

/-- Model of `retrieval_chain.run(query)` at line 104: the three stages
in sequence; a failure of any stage raises out of the call. -/
def retrievalChainRun (renv : REnv) (query : String) :
    Except String String :=
  match renv.embedQuery query with
  | Except.error e => Except.error e
  | Except.ok qv =>
      match renv.searchIndex qv with
      | Except.error e => Except.error e
      | Except.ok hits => renv.generateAnswer query hits

/-- Model of `run_retrieval_chain` (lines 83-107): connect to the
default database, run the chain with no try/except anywhere, close on
the normal path.  An error carries the message and the still-open
connection; success carries the closed connection and the answer. -/
def run_retrieval_chain (renv : REnv) (fs : String → List (Nat × String))
    (vector_db_path query : String) :
    Except (String × DbConn) (DbConn × String) :=
  let conn := connect_db fs
  match retrievalChainRun renv query with
  | Except.error e => Except.error (e, conn)
  | Except.ok result => Except.ok (closeConn conn, result)

/-- The path of the sqlite connection a pipeline run used, on either
exit path. -/
def pipelineConnPath : PResult → String
  | Except.ok st => st.conn.path
  | Except.error (_, st) => st.conn.path

/-- The path of the sqlite connection a retrieval run used, on either
exit path. -/
def retrievalConnPath :
    Except (String × DbConn) (DbConn × String) → String
  | Except.ok (conn, _) => conn.path
  | Except.error (_, conn) => conn.path

/-- Whether the sqlite connection of a pipeline run is still open, on
either exit path. -/
def resultConnOpen : PResult → Bool
  | Except.ok st => st.conn.isOpen
  | Except.error (_, st) => st.conn.isOpen

/-!
Closed-form characterization of a failure-free run, used to settle the
algebraic claims: which rows and which summary entries one run adds.
-/

/-- The summary entries one file contributes: one entry per segment,
all tagged with the file's id. -/
def fileSummaries (env : Env) (folder : String) (i : Nat) (fn : String) :
    List SummaryDoc :=
  (env.partitionSegs (path_join folder fn)).map
    (fun d => { text := env.summarizeFn d.text, id := i })

/-- The summary entries a whole run appends, file by file. -/
def runSummaries (env : Env) (folder : String)
    (pairs : List (Nat × String)) : List SummaryDoc :=
  pairs.foldr (fun p acc => fileSummaries env folder p.1 p.2 ++ acc) []

/-- Effect of one segment's `add_document` call on the rows: a plain
INSERT appends the row only when the id is still absent. -/
def segRowAdd (i : Nat) (fn fp : String) (rows : List (Nat × String))
    (d : Segment) : List (Nat × String) :=
  if hasId rows i then rows
  else rows ++ [(i, jsonDumps (buildMetadata fn fp d))]

/-- Effect of one file's segment loop on the rows. -/
def fileRowAdds (env : Env) (folder : String) (rows : List (Nat × String))
    (i : Nat) (fn : String) : List (Nat × String) :=
  (env.partitionSegs (path_join folder fn)).foldl
    (segRowAdd i fn (path_join folder fn)) rows

/-- Effect of a whole run on the rows, file by file. -/
def runRows (env : Env) (folder : String) (rows0 : List (Nat × String))
    (pairs : List (Nat × String)) : List (Nat × String) :=
  pairs.foldl (fun r p => fileRowAdds env folder r p.1 p.2) rows0

/-!
Concrete instances used by counterexamples and witnesses.
-/

/-- A first segment of a file, on page 1. -/
def segA : Segment :=
  { text := "alpha", metadata := { page_number := some 1, images := [] } }

/-- A second segment of the same file, on page 2. -/
def segB : Segment :=
  { text := "beta", metadata := { page_number := some 2, images := [] } }

/-- A segment carrying two embedded images, for the metadata claim. -/
def segImg : Segment :=
  { text := "gamma"
    metadata :=
      { page_number := some 5
        images := [{ path := "img0.png" }, { path := "img1.png" }] } }

/-- The metadata the pipeline builds for `segA` of file `a.txt` in
folder `docs`. -/
def metaA : DocMetadata := buildMetadata "a.txt" (path_join "docs" "a.txt") segA

/-- The metadata the pipeline builds for `segB` of file `a.txt` in
folder `docs`. -/
def metaB : DocMetadata := buildMetadata "a.txt" (path_join "docs" "a.txt") segB

/-- An empty filesystem: every database path holds no rows. -/
def fs0 : String → List (Nat × String) := fun _ => []

/-- The observable state right after connecting to a fresh default
database. -/
def stEmpty : PState :=
  { conn := { path := "documents.db", rows := [], isOpen := true }
    summaries := [] }

/-- A folder of one file that partitions into two segments; every
external call succeeds. -/
def envTwoSeg : Env :=
  { listdir := ["a.txt"]
    partitionSegs := fun _ => [segA, segB]
    partitionFails := fun _ => false
    summarizeFn := fun t => "summary of " ++ t
    summarizeFails := fun _ => false
    docWriteFails := fun _ _ => false
    vecAddFails := fun _ _ => false }

/-- A folder of one file on which the partitioner raises. -/
def envBad : Env :=
  { listdir := ["bad.bin"]
    partitionSegs := fun _ => []
    partitionFails := fun _ => true
    summarizeFn := fun t => "summary of " ++ t
    summarizeFails := fun _ => false
    docWriteFails := fun _ _ => false
    vecAddFails := fun _ _ => false }

/-- A folder of a good file followed by a file on which the partitioner
raises: the loop raises partway through. -/
def envBad2 : Env :=
  { listdir := ["a.txt", "bad.bin"]
    partitionSegs := fun _ => [segA]
    partitionFails := fun p => p = path_join "docs" "bad.bin"
    summarizeFn := fun t => "summary of " ++ t
    summarizeFails := fun _ => false
    docWriteFails := fun _ _ => false
    vecAddFails := fun _ _ => false }

/-- A folder of one well-partitioned file whose summarization call
raises. -/
def envSummFail : Env :=
  { listdir := ["a.txt"]
    partitionSegs := fun _ => [segA]
    partitionFails := fun _ => false
    summarizeFn := fun t => "summary of " ++ t
    summarizeFails := fun _ => true
    docWriteFails := fun _ _ => false
    vecAddFails := fun _ _ => false }

/-- The `envTwoSeg` folder, but every per-item store write (document
insert and summary add) fails. -/
def envWriteFail : Env :=
  { listdir := ["a.txt"]
    partitionSegs := fun _ => [segA, segB]
    partitionFails := fun _ => false
    summarizeFn := fun t => "summary of " ++ t
    summarizeFails := fun _ => false
    docWriteFails := fun _ _ => true
    vecAddFails := fun _ _ => true }

/-- The final state of the `envWriteFail` run: every write failed and
was swallowed, the run completed, the connection was closed. -/
def stWF : PState :=
  { conn := { path := "documents.db", rows := [], isOpen := false }
    summaries := [] }

/-- A retrieval environment whose query-embedding stage raises. -/
def renvEmbedFail : REnv :=
  { embedQuery := fun _ => Except.error "EmbeddingError"
    searchIndex := fun _ => Except.ok []
    generateAnswer := fun q _ => Except.ok ("answer to " ++ q) }

/-- The final state of one failure-free run of `envTwoSeg` over folder
`docs` from empty stores. -/
def st1c : PState :=
  { conn :=
      { path := "documents.db", rows := [(1, jsonDumps metaA)], isOpen := false }
    summaries :=
      [{ text := "summary of alpha", id := 1 }, { text := "summary of beta", id := 1 }] }

/-- The observable state at the moment the `envBad2` run raises: the
first file fully ingested, the connection still open. -/
def stErr2 : PState :=
  { conn :=
      { path := "documents.db", rows := [(1, jsonDumps metaA)], isOpen := true }
    summaries := [{ text := "summary of alpha", id := 1 }] }

/-- The filesystem after the first `envTwoSeg` run persisted its rows at
the default database path. -/
def fs1c : String → List (Nat × String) :=
  fun p => if p = "documents.db" then st1c.conn.rows else fs0 p

/-- The final state after re-running `envTwoSeg` on the stores the first
run left behind. -/
def st2c : PState :=
  { conn :=
      { path := "documents.db", rows := [(1, jsonDumps metaA)], isOpen := false }
    summaries :=
      [{ text := "summary of alpha", id := 1 }, { text := "summary of beta", id := 1 },
       { text := "summary of alpha", id := 1 }, { text := "summary of beta", id := 1 }] }

/-!
Helper lemmas shared by several claims.
-/

theorem enumFrom_snd (n : Nat) (l : List String) :
    (List.enumFrom n l).map Prod.snd = l := by
  induction l generalizing n with
  | nil => rfl
  | cons a t ih => simp [List.enumFrom_cons, ih]

theorem enumFrom_fst (n : Nat) (l : List String) :
    (List.enumFrom n l).map Prod.fst = List.range' n l.length := by
  induction l generalizing n with
  | nil => rfl
  | cons a t ih => simp [List.enumFrom_cons, ih, List.range'_succ]

theorem add_document_present (conn : DbConn) (doc_id : Nat)
    (m : DocMetadata) (h : hasId conn.rows doc_id = true) :
    add_document false conn doc_id m = conn := by
  simp [add_document, add_document_body, insertRow, h]

theorem add_document_absent (conn : DbConn) (doc_id : Nat)
    (m : DocMetadata) (h : hasId conn.rows doc_id = false) :
    add_document false conn doc_id m =
      { conn with rows := conn.rows ++ [(doc_id, jsonDumps m)] } := by
  simp [add_document, add_document_body, insertRow, h]

theorem add_document_fields (f : Bool) (conn : DbConn) (doc_id : Nat)
    (m : DocMetadata) :
    (add_document f conn doc_id m).path = conn.path ∧
    (add_document f conn doc_id m).isOpen = conn.isOpen := by
  cases f with
  | false =>
    by_cases h : hasId conn.rows doc_id <;>
      simp [add_document, add_document_body, insertRow, h]
  | true => exact ⟨rfl, rfl⟩

/-!
Claim C1.
-/

/-- C1 counterexample: the claim says a later segment's `put` replaces
the earlier segment's record, so the store keeps the last-written
metadata for a shared id.  Running the pipeline on a single file that
yields two segments with different metadata shows the store keeps the
FIRST segment's metadata: the second INSERT hits the primary-key
constraint, the raised `IntegrityError` is caught and logged inside
`add_document`, and the first row survives. -/
theorem C1_counterexample :
    process_documents envTwoSeg fs0 [] "docs" "vdb" = Except.ok st1c ∧
    st1c.conn.rows = [(1, jsonDumps metaA)] ∧
    jsonDumps metaA ≠ jsonDumps metaB := by
  refine ⟨rfl, rfl, ?_⟩
  decide

/-- C1 amended: `add_document` with no injected I/O failure appends the
serialized metadata under the id when no row with that id exists, and
leaves the store untouched (first-written row kept) when a row with
that id already exists — the plain INSERT raises `IntegrityError`,
which is caught and logged. -/
theorem C1_amended_thm (conn : DbConn) (doc_id : Nat) (m : DocMetadata) :
    (hasId conn.rows doc_id = true →
      add_document false conn doc_id m = conn) ∧
    (hasId conn.rows doc_id = false →
      add_document false conn doc_id m =
        { conn with rows := conn.rows ++ [(doc_id, jsonDumps m)] }) :=
  ⟨add_document_present conn doc_id m, add_document_absent conn doc_id m⟩

/-- C1 amended, witness: a fresh insert succeeds, and a second insert
under the same id leaves the first row in place. -/
theorem C1_amended_witness :
    add_document false { path := "documents.db", rows := [], isOpen := true }
        1 metaA =
      { path := "documents.db", rows := [(1, jsonDumps metaA)], isOpen := true } ∧
    add_document false
        { path := "documents.db", rows := [(1, jsonDumps metaA)], isOpen := true }
        1 metaB =
      { path := "documents.db", rows := [(1, jsonDumps metaA)], isOpen := true } := by
  constructor
  · exact (C1_amended_thm { path := "documents.db", rows := [], isOpen := true }
      1 metaA).2 rfl
  · exact (C1_amended_thm
      { path := "documents.db", rows := [(1, jsonDumps metaA)], isOpen := true }
      1 metaB).1 rfl

/-!
Claim C2.
-/

/-- C2: the claim (and the spec scenario) says a folder containing a
file on which extraction fails still completes without raising, the
failure being confined to that file.  At the failing input — a folder
whose single entry the partitioner raises on — the unguarded
`partition(file_path)` call at line 65 propagates the exception out of
`process_documents`: the run aborts (an error, not a normal return), no
record and no summary entry having been added and the connection left
open.  The code contradicts the spec's stated intent (spec section 7
calls the missing per-file guard a gap), so this is a code bug. -/
theorem C2_extraction_failure_aborts :
    process_documents envBad fs0 [] "docs" "vdb" =
      Except.error ("ExtractionError", stEmpty) ∧
    stEmpty.conn.rows = [] ∧ stEmpty.summaries = [] := ⟨rfl, rfl, rfl⟩

/-!
Claim C6.
-/

/-- C6: `assignIds`, the model of `enumerate(os.listdir(folder_path),
start=1)` that `process_documents` iterates over, pairs the listed
entries, in listing order, with exactly the ids 1..n (n the listing
length): the second components are the listing itself, the first
components are precisely the duplicate-free range 1..n.  The ids depend
only on the listing, never on how many segments a file later yields. -/
theorem C6_ids_bijective (l : List String) :
    (assignIds l).map Prod.snd = l ∧
    (assignIds l).map Prod.fst = List.range' 1 l.length ∧
    ((assignIds l).map Prod.fst).Nodup := by
  refine ⟨enumFrom_snd 1 l, enumFrom_fst 1 l, ?_⟩
  rw [assignIds, enumFrom_fst 1 l]
  exact List.nodup_range' 1 l.length

/-!
Claim C7.
-/

/-- C7: the Document Record metadata built for a segment carries exactly
the five fields of lines 69-75: the listed filename, the joined file
path as source, the segment's page number (0 when the partitioner
reports none), the count of the segment's embedded images, and the
mapping from positional index to each image's path. -/
theorem C7_metadata_fields (fn fp : String) (doc : Segment) :
    (buildMetadata fn fp doc).filename = fn ∧
    (buildMetadata fn fp doc).source = fp ∧
    (∀ p, doc.metadata.page_number = some p →
      (buildMetadata fn fp doc).pagenumber = p) ∧
    (doc.metadata.page_number = none →
      (buildMetadata fn fp doc).pagenumber = 0) ∧
    (buildMetadata fn fp doc).image_count = doc.metadata.images.length ∧
    (buildMetadata fn fp doc).images.length = doc.metadata.images.length ∧
    (∀ i : Nat, (buildMetadata fn fp doc).images[i]? =
      (doc.metadata.images[i]?).map fun img => (i, img.path)) := by
  refine ⟨rfl, rfl, ?_, ?_, rfl, ?_, ?_⟩
  · intro p h; simp [buildMetadata, h]
  · intro h; simp [buildMetadata, h]
  · simp [buildMetadata]
  · intro i
    simp only [buildMetadata, List.enum, List.getElem?_enumFrom,
      List.getElem?_map, Option.map_map, Nat.zero_add]
    rfl

/-- C7 witness: the metadata of a concrete segment on page 5 with two
embedded images. -/
theorem C7_witness :
    (buildMetadata "a.txt" "docs/a.txt" segImg).pagenumber = 5 ∧
    (buildMetadata "a.txt" "docs/a.txt" segImg).images[1]? =
      some (1, "img1.png") := by
  constructor
  · exact (C7_metadata_fields "a.txt" "docs/a.txt" segImg).2.2.1 5 rfl
  · have h := (C7_metadata_fields "a.txt" "docs/a.txt" segImg).2.2.2.2.2.2 1
    simpa using h

/-!
Claim C8.
-/

/-- C8: `run_retrieval_chain` wraps nothing in try/except: a failure of
any of the three retrieval stages — embedding the query, searching the
index, generating the answer — propagates to the caller as that very
error (with the connection still open), and the caller receives an
answer string only when every stage succeeded. -/
theorem C8_query_failures_propagate (renv : REnv)
    (fs : String → List (Nat × String)) (v q : String) :
    (∀ e, renv.embedQuery q = Except.error e →
      run_retrieval_chain renv fs v q = Except.error (e, connect_db fs)) ∧
    (∀ qv e, renv.embedQuery q = Except.ok qv →
      renv.searchIndex qv = Except.error e →
      run_retrieval_chain renv fs v q = Except.error (e, connect_db fs)) ∧
    (∀ qv hits e, renv.embedQuery q = Except.ok qv →
      renv.searchIndex qv = Except.ok hits →
      renv.generateAnswer q hits = Except.error e →
      run_retrieval_chain renv fs v q = Except.error (e, connect_db fs)) ∧
    (∀ conn a, run_retrieval_chain renv fs v q = Except.ok (conn, a) →
      retrievalChainRun renv q = Except.ok a) := by
  refine ⟨?_, ?_, ?_, ?_⟩
  · intro e h; simp [run_retrieval_chain, retrievalChainRun, h]
  · intro qv e h1 h2; simp [run_retrieval_chain, retrievalChainRun, h1, h2]
  · intro qv hits e h1 h2 h3
    simp [run_retrieval_chain, retrievalChainRun, h1, h2, h3]
  · intro conn a h
    unfold run_retrieval_chain at h
    cases hrun : retrievalChainRun renv q with
    | error e => rw [hrun] at h; exact absurd h (by simp)
    | ok r => rw [hrun] at h; simp at h; rw [h.2]

/-- C8 witness: a failing query-embedding stage aborts the concrete
query with that error. -/
theorem C8_witness :
    run_retrieval_chain renvEmbedFail fs0 "vdb"
        "What is the content of Document 1?" =
      Except.error ("EmbeddingError", connect_db fs0) :=
  (C8_query_failures_propagate renvEmbedFail fs0 "vdb"
    "What is the content of Document 1?").1 "EmbeddingError" rfl

/-!
Claim C9.
-/

/-- C9: `add_document` and `add_summary` wrap their whole bodies in
`try/except Exception`, so both always return normally: when the body
raises (duplicate-id IntegrityError, injected I/O failure, embedding or
index-write failure) the error is logged and the function returns with
the store exactly as it was; when the body succeeds the new store state
is returned. -/
theorem C9_store_writes_never_raise (ioFail : Bool) (conn : DbConn)
    (doc_id : Nat) (m : DocMetadata) (vecFail : Bool) (sid : Nat)
    (s : String) (store : List SummaryDoc) :
    (∀ e, add_document_body ioFail conn doc_id m = Except.error e →
      add_document ioFail conn doc_id m = conn) ∧
    (∀ conn2, add_document_body ioFail conn doc_id m = Except.ok conn2 →
      add_document ioFail conn doc_id m = conn2) ∧
    (∀ e, add_summary_body vecFail sid s store = Except.error e →
      add_summary vecFail sid s store = store) ∧
    (∀ store2, add_summary_body vecFail sid s store = Except.ok store2 →
      add_summary vecFail sid s store = store2) := by
  refine ⟨?_, ?_, ?_, ?_⟩ <;> intro x h <;>
    simp [add_document, add_summary, h]

/-- C9 witness: an injected I/O failure of the document insert and an
injected failure of the summary add both leave the stores unchanged. -/
theorem C9_witness :
    add_document true { path := "documents.db", rows := [], isOpen := true }
        1 metaA =
      { path := "documents.db", rows := [], isOpen := true } ∧
    add_summary true 1 "s" [] = [] := by
  constructor
  · exact (C9_store_writes_never_raise true
      { path := "documents.db", rows := [], isOpen := true }
      1 metaA true 1 "s" []).1 "OperationalError: disk I/O error" rfl
  · exact (C9_store_writes_never_raise true
      { path := "documents.db", rows := [], isOpen := true }
      1 metaA true 1 "s" []).2.2.1 "EmbeddingError" rfl

/-!
Connection invariants: the loops never change the connection's path and
never close it; only the final `conn.close()` does.
-/

theorem processSegment_fields (env : Env) (folder fn : String) (i : Nat)
    (d : Segment) (st : PState) :
    pipelineConnPath (processSegment env folder fn i d st) = st.conn.path ∧
    resultConnOpen (processSegment env folder fn i d st) = st.conn.isOpen := by
  unfold processSegment
  cases h : summaryChainRun env d.text with
  | error e => exact ⟨rfl, rfl⟩
  | ok s =>
    exact add_document_fields
      (env.docWriteFails i (buildMetadata fn (path_join folder fn) d))
      st.conn i (buildMetadata fn (path_join folder fn) d)

theorem segFold_fields (env : Env) (folder fn : String) (i : Nat)
    (docs : List Segment) (st : PState) :
    pipelineConnPath
        (docs.foldlM (fun s d => processSegment env folder fn i d s) st) =
      st.conn.path ∧
    resultConnOpen
        (docs.foldlM (fun s d => processSegment env folder fn i d s) st) =
      st.conn.isOpen := by
  induction docs generalizing st with
  | nil => exact ⟨rfl, rfl⟩
  | cons d ds ih =>
    rw [List.foldlM_cons]
    cases h : processSegment env folder fn i d st with
    | error es =>
      have hf := processSegment_fields env folder fn i d st
      rw [h] at hf
      exact hf
    | ok st1 =>
      have hf := processSegment_fields env folder fn i d st
      rw [h] at hf
      exact ⟨(ih st1).1.trans hf.1, (ih st1).2.trans hf.2⟩

theorem processFile_fields (env : Env) (folder : String) (i : Nat)
    (fn : String) (st : PState) :
    pipelineConnPath (processFile env folder i fn st) = st.conn.path ∧
    resultConnOpen (processFile env folder i fn st) = st.conn.isOpen := by
  unfold processFile
  cases h : partitionCall env (path_join folder fn) with
  | error e => exact ⟨rfl, rfl⟩
  | ok docs => exact segFold_fields env folder fn i docs st

theorem pairFold_fields (env : Env) (folder : String)
    (pairs : List (Nat × String)) (st : PState) :
    pipelineConnPath
        (pairs.foldlM (fun s p => processFile env folder p.1 p.2 s) st) =
      st.conn.path ∧
    resultConnOpen
        (pairs.foldlM (fun s p => processFile env folder p.1 p.2 s) st) =
      st.conn.isOpen := by
  induction pairs generalizing st with
  | nil => exact ⟨rfl, rfl⟩
  | cons p ps ih =>
    rw [List.foldlM_cons]
    cases h : processFile env folder p.1 p.2 st with
    | error es =>
      have hf := processFile_fields env folder p.1 p.2 st
      rw [h] at hf
      exact hf
    | ok st1 =>
      have hf := processFile_fields env folder p.1 p.2 st
      rw [h] at hf
      exact ⟨(ih st1).1.trans hf.1, (ih st1).2.trans hf.2⟩

theorem process_documents_path (env : Env)
    (fs : String → List (Nat × String)) (persisted : List SummaryDoc)
    (folder v : String) :
    pipelineConnPath (process_documents env fs persisted folder v) =
      "documents.db" := by
  unfold process_documents
  cases h : (assignIds env.listdir).foldlM
      (fun s p => processFile env folder p.1 p.2 s)
      { conn := create_table (connect_db fs), summaries := persisted } with
  | error es =>
    have hf := pairFold_fields env folder (assignIds env.listdir)
      { conn := create_table (connect_db fs), summaries := persisted }
    rw [h] at hf
    exact hf.1
  | ok st =>
    have hf := pairFold_fields env folder (assignIds env.listdir)
      { conn := create_table (connect_db fs), summaries := persisted }
    rw [h] at hf
    exact hf.1

/-!
Claim C10.
-/

/-- C10: whatever the folder, vector-store path, query, environment and
filesystem, both `process_documents` and `run_retrieval_chain` call
`connect_db()` with no argument, so the Record Store they use sits at
the default relative location `documents.db` on every exit path — the
location is independent of `vector_db_path` and of every parameter of
either function. -/
theorem C10_record_store_fixed_path (env : Env)
    (fs : String → List (Nat × String)) (persisted : List SummaryDoc)
    (f v : String) (renv : REnv) (v2 q : String) :
    pipelineConnPath (process_documents env fs persisted f v) =
      "documents.db" ∧
    retrievalConnPath (run_retrieval_chain renv fs v2 q) =
      "documents.db" := by
  refine ⟨process_documents_path env fs persisted f v, ?_⟩
  unfold run_retrieval_chain
  cases h : retrievalChainRun renv q with
  | error e => rfl
  | ok r => rfl

/-!
Claim C3.
-/

/-- C3 counterexample: the claim says the connection opened at the start
is released on all exit paths, including when the loop raises partway.
On a folder whose second file the partitioner raises on, the run exits
through the uncaught exception with the connection still open:
`conn.close()` at line 80 sits after the loop with no try/finally
around it. -/
theorem C3_counterexample :
    process_documents envBad2 fs0 [] "docs" "vdb" =
      Except.error ("ExtractionError", stErr2) ∧
    stErr2.conn.isOpen = true := ⟨rfl, rfl⟩

/-- C3 amended: the connection is closed on the normal exit path (the
loop terminated without raising), and is left open on the exit path
where the loop raises partway through. -/
theorem C3_amended_thm (env : Env) (fs : String → List (Nat × String))
    (persisted : List SummaryDoc) (f v : String) :
    (∀ st, process_documents env fs persisted f v = Except.ok st →
      st.conn.isOpen = false) ∧
    (∀ e st, process_documents env fs persisted f v = Except.error (e, st) →
      st.conn.isOpen = true) := by
  constructor
  · intro st h
    unfold process_documents at h
    cases hf : (assignIds env.listdir).foldlM
        (fun s p => processFile env f p.1 p.2 s)
        { conn := create_table (connect_db fs), summaries := persisted } with
    | error es => rw [hf] at h; exact absurd h (by simp)
    | ok st1 =>
      rw [hf] at h
      simp only [Except.ok.injEq] at h
      rw [← h]
      rfl
  · intro e st h
    unfold process_documents at h
    cases hf : (assignIds env.listdir).foldlM
        (fun s p => processFile env f p.1 p.2 s)
        { conn := create_table (connect_db fs), summaries := persisted } with
    | error es =>
      have hinv := pairFold_fields env f (assignIds env.listdir)
        { conn := create_table (connect_db fs), summaries := persisted }
      rw [hf] at h hinv
      simp only [Except.error.injEq] at h
      have : resultConnOpen (Except.error es : PResult) = true := hinv.2
      rw [h] at this
      exact this
    | ok st1 => rw [hf] at h; exact absurd h (by simp)

/-- C3 amended, witness: the failure-free run closes its connection,
and the run whose loop raises partway leaves it open. -/
theorem C3_amended_witness :
    st1c.conn.isOpen = false ∧ stErr2.conn.isOpen = true := by
  constructor
  · exact (C3_amended_thm envTwoSeg fs0 [] "docs" "vdb").1 st1c rfl
  · exact (C3_amended_thm envBad2 fs0 [] "docs" "vdb").2 "ExtractionError"
      stErr2 rfl

/-!
Claim C4: completion lemmas.
-/

theorem processSegment_ok (env : Env)
    (hs : ∀ t, env.summarizeFails t = false) (folder fn : String) (i : Nat)
    (d : Segment) (st : PState) :
    processSegment env folder fn i d st =
      Except.ok
        { conn :=
            add_document
              (env.docWriteFails i (buildMetadata fn (path_join folder fn) d))
              st.conn i (buildMetadata fn (path_join folder fn) d)
          summaries :=
            add_summary (env.vecAddFails i (env.summarizeFn d.text)) i
              (env.summarizeFn d.text) st.summaries } := by
  simp [processSegment, summaryChainRun, hs]

theorem segFold_ok (env : Env) (hs : ∀ t, env.summarizeFails t = false)
    (folder fn : String) (i : Nat) (docs : List Segment) (st : PState) :
    ∃ st', docs.foldlM (fun s d => processSegment env folder fn i d s) st =
      Except.ok st' := by
  induction docs generalizing st with
  | nil => exact ⟨st, rfl⟩
  | cons d ds ih =>
    rw [List.foldlM_cons, processSegment_ok env hs folder fn i d st]
    exact ih _

theorem processFile_ok (env : Env)
    (hp : ∀ p, env.partitionFails p = false)
    (hs : ∀ t, env.summarizeFails t = false) (folder : String) (i : Nat)
    (fn : String) (st : PState) :
    ∃ st', processFile env folder i fn st = Except.ok st' := by
  unfold processFile
  rw [show partitionCall env (path_join folder fn) =
      Except.ok (env.partitionSegs (path_join folder fn)) by
    simp [partitionCall, hp]]
  exact segFold_ok env hs folder fn i
    (env.partitionSegs (path_join folder fn)) st

theorem pairFold_ok (env : Env)
    (hp : ∀ p, env.partitionFails p = false)
    (hs : ∀ t, env.summarizeFails t = false) (folder : String)
    (pairs : List (Nat × String)) (st : PState) :
    ∃ st', pairs.foldlM (fun s p => processFile env folder p.1 p.2 s) st =
      Except.ok st' := by
  induction pairs generalizing st with
  | nil => exact ⟨st, rfl⟩
  | cons p ps ih =>
    obtain ⟨st1, h1⟩ := processFile_ok env hp hs folder p.1 p.2 st
    rw [List.foldlM_cons, h1]
    exact ih st1

/-!
Claim C4.
-/

/-- C4 counterexample: the claim says a summarization failure is logged
and the run continues.  On a folder whose single file partitions fine
but whose summarization call raises, the unguarded
`summary_chain.run(content)` at line 76 propagates the exception and
the whole run aborts with nothing added and the connection open. -/
theorem C4_counterexample :
    process_documents envSummFail fs0 [] "docs" "vdb" =
      Except.error ("SummarizationError", stEmpty) := rfl

/-- C4 amended: per-item store write failures (document insert, summary
add) are caught and logged inside `add_document`/`add_summary` and the
run continues to completion — with no rollback and no retry — for any
pattern of write failures; but extraction failures and summarization
failures are not caught anywhere: either aborts the run at that point,
propagating to the caller. -/
theorem C4_failure_handling (env : Env)
    (fs : String → List (Nat × String)) (persisted : List SummaryDoc)
    (f v : String) :
    ((∀ p, env.partitionFails p = false) →
      (∀ t, env.summarizeFails t = false) →
      ∃ st, process_documents env fs persisted f v = Except.ok st) ∧
    (∀ fn i d st, env.summarizeFails d.text = true →
      processSegment env f fn i d st =
        Except.error ("SummarizationError", st)) ∧
    (∀ i fn st, env.partitionFails (path_join f fn) = true →
      processFile env f i fn st = Except.error ("ExtractionError", st)) := by
  refine ⟨?_, ?_, ?_⟩
  · intro hp hs
    obtain ⟨st1, h1⟩ := pairFold_ok env hp hs f (assignIds env.listdir)
      { conn := create_table (connect_db fs), summaries := persisted }
    refine ⟨{ st1 with conn := closeConn st1.conn }, ?_⟩
    unfold process_documents
    rw [h1]
  · intro fn i d st h
    simp [processSegment, summaryChainRun, h]
  · intro i fn st h
    simp [processFile, partitionCall, h]

/-- C4 witness: a run where every store write fails still completes
(with the stores unchanged and the connection closed), a failing
summarization aborts its segment loop, and a failing extraction aborts
its file. -/
theorem C4_witness :
    process_documents envWriteFail fs0 [] "docs" "vdb" = Except.ok stWF ∧
    processSegment envSummFail "docs" "a.txt" 1 segA stEmpty =
      Except.error ("SummarizationError", stEmpty) ∧
    processFile envBad "docs" 1 "bad.bin" stEmpty =
      Except.error ("ExtractionError", stEmpty) := by
  obtain ⟨st, hst⟩ := (C4_failure_handling envWriteFail fs0 [] "docs" "vdb").1
    (fun p => rfl) (fun t => rfl)
  have hok : (Except.ok st : PResult) = Except.ok stWF := by rw [← hst]; rfl
  refine ⟨?_, ?_, ?_⟩
  · rw [← Except.ok.inj hok]
    exact hst
  · exact (C4_failure_handling envSummFail fs0 [] "docs" "vdb").2.1
      "a.txt" 1 segA stEmpty rfl
  · exact (C4_failure_handling envBad fs0 [] "docs" "vdb").2.2
      1 "bad.bin" stEmpty rfl

/-!
Claim C5: closed form of a failure-free run.
-/

theorem processSegment_eq (env : Env)
    (hs : ∀ t, env.summarizeFails t = false)
    (hd : ∀ i m, env.docWriteFails i m = false)
    (hv : ∀ i s, env.vecAddFails i s = false) (folder fn : String)
    (i : Nat) (d : Segment) (st : PState) :
    processSegment env folder fn i d st =
      Except.ok
        { conn :=
            { st.conn with
              rows := segRowAdd i fn (path_join folder fn) st.conn.rows d }
          summaries :=
            st.summaries ++ [{ text := env.summarizeFn d.text, id := i }] } := by
  by_cases h : hasId st.conn.rows i <;>
    simp [processSegment, summaryChainRun, hs, hd, hv, add_document,
      add_document_body, insertRow, add_summary, add_summary_body,
      segRowAdd, h]

theorem segFold_eq (env : Env)
    (hs : ∀ t, env.summarizeFails t = false)
    (hd : ∀ i m, env.docWriteFails i m = false)
    (hv : ∀ i s, env.vecAddFails i s = false) (folder fn : String)
    (i : Nat) (docs : List Segment) (st : PState) :
    docs.foldlM (fun s d => processSegment env folder fn i d s) st =
      Except.ok
        { conn :=
            { st.conn with
              rows := docs.foldl (segRowAdd i fn (path_join folder fn))
                st.conn.rows }
          summaries :=
            st.summaries ++
              docs.map (fun d => { text := env.summarizeFn d.text, id := i }) } := by
  induction docs generalizing st with
  | nil =>
    simp only [List.foldlM_nil, List.foldl_nil, List.map_nil, List.append_nil]
    rfl
  | cons d ds ih =>
    rw [List.foldlM_cons, processSegment_eq env hs hd hv folder fn i d st]
    have h2 := ih
      { conn :=
          { st.conn with
            rows := segRowAdd i fn (path_join folder fn) st.conn.rows d }
        summaries :=
          st.summaries ++ [{ text := env.summarizeFn d.text, id := i }] }
    exact h2.trans (by simp)

theorem processFile_eq (env : Env)
    (hp : ∀ p, env.partitionFails p = false)
    (hs : ∀ t, env.summarizeFails t = false)
    (hd : ∀ i m, env.docWriteFails i m = false)
    (hv : ∀ i s, env.vecAddFails i s = false) (folder : String) (i : Nat)
    (fn : String) (st : PState) :
    processFile env folder i fn st =
      Except.ok
        { conn :=
            { st.conn with
              rows := fileRowAdds env folder st.conn.rows i fn }
          summaries := st.summaries ++ fileSummaries env folder i fn } := by
  unfold processFile
  rw [show partitionCall env (path_join folder fn) =
      Except.ok (env.partitionSegs (path_join folder fn)) by
    simp [partitionCall, hp]]
  exact segFold_eq env hs hd hv folder fn i
    (env.partitionSegs (path_join folder fn)) st

theorem pairFold_eq (env : Env)
    (hp : ∀ p, env.partitionFails p = false)
    (hs : ∀ t, env.summarizeFails t = false)
    (hd : ∀ i m, env.docWriteFails i m = false)
    (hv : ∀ i s, env.vecAddFails i s = false) (folder : String)
    (pairs : List (Nat × String)) (st : PState) :
    pairs.foldlM (fun s p => processFile env folder p.1 p.2 s) st =
      Except.ok
        { conn :=
            { st.conn with rows := runRows env folder st.conn.rows pairs }
          summaries := st.summaries ++ runSummaries env folder pairs } := by
  induction pairs generalizing st with
  | nil =>
    simp only [List.foldlM_nil, runRows, runSummaries, List.foldl_nil,
      List.foldr_nil, List.append_nil]
    rfl
  | cons q qs ih =>
    rw [List.foldlM_cons, processFile_eq env hp hs hd hv folder q.1 q.2 st]
    have h2 := ih
      { conn :=
          { st.conn with
            rows := fileRowAdds env folder st.conn.rows q.1 q.2 }
        summaries := st.summaries ++ fileSummaries env folder q.1 q.2 }
    exact h2.trans (by simp [runRows, runSummaries])

theorem process_documents_eq (env : Env)
    (fs : String → List (Nat × String)) (persisted : List SummaryDoc)
    (folder v : String)
    (hp : ∀ p, env.partitionFails p = false)
    (hs : ∀ t, env.summarizeFails t = false)
    (hd : ∀ i m, env.docWriteFails i m = false)
    (hv : ∀ i s, env.vecAddFails i s = false) :
    process_documents env fs persisted folder v =
      Except.ok
        { conn :=
            { path := "documents.db"
              rows := runRows env folder (fs "documents.db")
                (assignIds env.listdir)
              isOpen := false }
          summaries :=
            persisted ++ runSummaries env folder (assignIds env.listdir) } := by
  unfold process_documents
  rw [pairFold_eq env hp hs hd hv folder (assignIds env.listdir)
    { conn := create_table (connect_db fs), summaries := persisted }]
  rfl

/-!
Claim C5: the second run's inserts all hit existing ids.
-/

theorem hasId_append (rows extra : List (Nat × String)) (i : Nat) :
    hasId (rows ++ extra) i = (hasId rows i || hasId extra i) := by
  simp [hasId, List.any_append]

theorem hasId_segRowAdd_mono (i j : Nat) (fn fp : String)
    (rows : List (Nat × String)) (d : Segment)
    (h : hasId rows j = true) :
    hasId (segRowAdd i fn fp rows d) j = true := by
  unfold segRowAdd
  split
  · exact h
  · rw [hasId_append, h]; rfl

theorem hasId_segRowAdd_self (i : Nat) (fn fp : String)
    (rows : List (Nat × String)) (d : Segment) :
    hasId (segRowAdd i fn fp rows d) i = true := by
  unfold segRowAdd
  split
  · assumption
  · rw [hasId_append]
    simp [hasId]

theorem hasId_segFoldl_mono (i j : Nat) (fn fp : String)
    (docs : List Segment) (rows : List (Nat × String))
    (h : hasId rows j = true) :
    hasId (docs.foldl (segRowAdd i fn fp) rows) j = true := by
  induction docs generalizing rows with
  | nil => exact h
  | cons d ds ih =>
    rw [List.foldl_cons]
    exact ih _ (hasId_segRowAdd_mono i j fn fp rows d h)

theorem hasId_fileRowAdds_mono (env : Env) (folder : String)
    (rows : List (Nat × String)) (i j : Nat) (fn : String)
    (h : hasId rows j = true) :
    hasId (fileRowAdds env folder rows i fn) j = true :=
  hasId_segFoldl_mono i j fn (path_join folder fn) _ rows h

theorem hasId_fileRowAdds_self (env : Env) (folder : String)
    (rows : List (Nat × String)) (i : Nat) (fn : String)
    (hne : env.partitionSegs (path_join folder fn) ≠ []) :
    hasId (fileRowAdds env folder rows i fn) i = true := by
  unfold fileRowAdds
  cases hseg : env.partitionSegs (path_join folder fn) with
  | nil => exact absurd hseg hne
  | cons d ds =>
    rw [List.foldl_cons]
    exact hasId_segFoldl_mono i i fn (path_join folder fn) ds _
      (hasId_segRowAdd_self i fn (path_join folder fn) rows d)

theorem hasId_runRows_mono (env : Env) (folder : String)
    (pairs : List (Nat × String)) (rows : List (Nat × String)) (j : Nat)
    (h : hasId rows j = true) :
    hasId (runRows env folder rows pairs) j = true := by
  induction pairs generalizing rows with
  | nil => exact h
  | cons q qs ih =>
    rw [runRows, List.foldl_cons]
    exact ih _ (hasId_fileRowAdds_mono env folder rows q.1 j q.2 h)

theorem hasId_runRows_self (env : Env) (folder : String)
    (pairs : List (Nat × String)) (rows0 : List (Nat × String))
    (p : Nat × String) (hp : p ∈ pairs)
    (hne : env.partitionSegs (path_join folder p.2) ≠ []) :
    hasId (runRows env folder rows0 pairs) p.1 = true := by
  induction pairs generalizing rows0 with
  | nil => cases hp
  | cons q qs ih =>
    rw [runRows, List.foldl_cons]
    cases hp with
    | head =>
      exact hasId_runRows_mono env folder qs _ p.1
        (hasId_fileRowAdds_self env folder rows0 p.1 p.2 hne)
    | tail _ hmem => exact ih _ hmem

theorem segFoldl_noop (i : Nat) (fn fp : String) (docs : List Segment)
    (rows : List (Nat × String)) (h : hasId rows i = true) :
    docs.foldl (segRowAdd i fn fp) rows = rows := by
  induction docs with
  | nil => rfl
  | cons d ds ih =>
    rw [List.foldl_cons, segRowAdd, if_pos h]
    exact ih

theorem fileRowAdds_noop (env : Env) (folder : String)
    (rows : List (Nat × String)) (i : Nat) (fn : String)
    (h : env.partitionSegs (path_join folder fn) = [] ∨
      hasId rows i = true) :
    fileRowAdds env folder rows i fn = rows := by
  unfold fileRowAdds
  cases h with
  | inl h => rw [h]; rfl
  | inr h => exact segFoldl_noop i fn (path_join folder fn) _ rows h

theorem runRows_noop (env : Env) (folder : String)
    (R : List (Nat × String)) (pairs : List (Nat × String))
    (h : ∀ p ∈ pairs, env.partitionSegs (path_join folder p.2) = [] ∨
      hasId R p.1 = true) :
    runRows env folder R pairs = R := by
  induction pairs with
  | nil => rfl
  | cons q qs ih =>
    rw [runRows, List.foldl_cons,
      fileRowAdds_noop env folder R q.1 q.2 (h q (List.mem_cons_self q qs))]
    exact ih (fun p hp => h p (List.mem_cons_of_mem q hp))

theorem runRows_twice (env : Env) (folder : String)
    (rows0 : List (Nat × String)) (pairs : List (Nat × String)) :
    runRows env folder (runRows env folder rows0 pairs) pairs =
      runRows env folder rows0 pairs := by
  apply runRows_noop
  intro p hp
  by_cases hseg : env.partitionSegs (path_join folder p.2) = []
  · exact Or.inl hseg
  · exact Or.inr (hasId_runRows_self env folder pairs rows0 p hp hseg)

/-!
Claim C5.
-/

/-- C5: running ingestion twice on the same unchanged folder with the
same store paths and failure-free collaborators: the first run starts
from a fresh Summary Index, the second run starts from the stores the
first run left behind.  The Summary Index entry count exactly doubles
(append-only adds), while the Record Store rows after the second run
are the very rows of the first run (every second-run INSERT hits an
existing id, raises IntegrityError and is swallowed), so the row count
is unchanged. -/
theorem C5_rerun_doubles_index_not_store (env : Env)
    (fs : String → List (Nat × String)) (folder v : String)
    (hp : ∀ p, env.partitionFails p = false)
    (hs : ∀ t, env.summarizeFails t = false)
    (hd : ∀ i m, env.docWriteFails i m = false)
    (hv : ∀ i s, env.vecAddFails i s = false) :
    ∃ st1 st2,
      process_documents env fs [] folder v = Except.ok st1 ∧
      process_documents env
        (fun p => if p = "documents.db" then st1.conn.rows else fs p)
        st1.summaries folder v = Except.ok st2 ∧
      st2.summaries.length = 2 * st1.summaries.length ∧
      st2.conn.rows = st1.conn.rows := by
  refine
    ⟨{ conn :=
         { path := "documents.db"
           rows := runRows env folder (fs "documents.db")
             (assignIds env.listdir)
           isOpen := false }
       summaries :=
         [] ++ runSummaries env folder (assignIds env.listdir) },
     { conn :=
         { path := "documents.db"
           rows := runRows env folder
             (runRows env folder (fs "documents.db") (assignIds env.listdir))
             (assignIds env.listdir)
           isOpen := false }
       summaries :=
         ([] ++ runSummaries env folder (assignIds env.listdir)) ++
           runSummaries env folder (assignIds env.listdir) },
     process_documents_eq env fs [] folder v hp hs hd hv, ?_, ?_, ?_⟩
  · rw [process_documents_eq env
      (fun p => if p = "documents.db" then
        ({ conn :=
             { path := "documents.db"
               rows := runRows env folder (fs "documents.db")
                 (assignIds env.listdir)
               isOpen := false }
           summaries :=
             [] ++ runSummaries env folder (assignIds env.listdir) } :
          PState).conn.rows
        else fs p)
      (([] : List SummaryDoc) ++
        runSummaries env folder (assignIds env.listdir))
      folder v hp hs hd hv]
    simp
  · simp [Nat.two_mul]
  · simp [runRows_twice]

/-- C5 witness: the two-segment folder ingested twice: two Summary
Index entries after the first run, four after the second, while the
Record Store rows are identical across the two runs. -/
theorem C5_witness :
    process_documents envTwoSeg fs0 [] "docs" "vdb" = Except.ok st1c ∧
    process_documents envTwoSeg fs1c st1c.summaries "docs" "vdb" =
      Except.ok st2c ∧
    st2c.summaries.length = 2 * st1c.summaries.length ∧
    st2c.conn.rows = st1c.conn.rows := by
  obtain ⟨st1, st2, h1, h2, h3, h4⟩ :=
    C5_rerun_doubles_index_not_store envTwoSeg fs0 "docs" "vdb"
      (fun p => rfl) (fun t => rfl) (fun i m => rfl) (fun i s => rfl)
  have e1 : st1 = st1c := by
    have h : (Except.ok st1 : PResult) = Except.ok st1c := by rw [← h1]; rfl
    exact Except.ok.inj h
  subst e1
  have e2 : st2 = st2c := by
    have h : (Except.ok st2 : PResult) = Except.ok st2c := by rw [← h2]; rfl
    exact Except.ok.inj h
  subst e2
  exact ⟨h1, h2, h3, h4⟩

end MultiReprIndexing
